import Mathlib

/-!
A shallow Lean embedding of the request-routing / tool-invocation layer of the
`a2a-mlb-agent` repository, together with theorems that settle the claims made
by its natural-language specification.

Embedded source files:
  * `src/agent_executor.py` — `MCPToolWrapper` (the Tool Adapter and Result
    Normalizer), `MLBTransferAgent` (initialization, persona selection,
    invocation error classification) and `MLBTransferAgentExecutor`
    (session-id extraction).
  * `src/memory.py` — `ConversationMemoryStore` construction and the
    message (de)serialization helpers.

Modelling conventions:
  * JSON-compatible Python runtime values are the inductive `Value`
    (`None`, `bool`, `int`, `str`, `list`, `dict`). Python `dict`s are
    insertion-ordered association lists; real Python dicts have unique keys.
    Floats are outside the embedding; no claim mentions them.
  * A Python expression that may raise is embedded as `Except String α`,
    the `String` being `str(e)` of the raised exception.
  * `str.lower()` is modelled as a per-character lowercase map; the Korean
    keyword cues are untouched by lowercasing in both Python and the model.
  * `needle in hay` on strings is substring containment (`containsList`).
-/

/-! ### Python string primitives -/

-- `hay` starts with `needle` (prefix test used to implement containment).
def startsWithList : List Char → List Char → Bool
  | _, [] => true
  | [], _ :: _ => false
  | a :: as, b :: bs => a == b && startsWithList as bs

-- Python `needle in hay` for strings: `needle` occurs contiguously in `hay`.
def containsList (hay needle : List Char) : Bool :=
  match hay with
  | [] => needle.isEmpty
  | c :: t => startsWithList (c :: t) needle || containsList t needle

-- Python `needle in hay` lifted to `String`.
def pyContains (hay needle : String) : Bool :=
  containsList hay.data needle.data

-- Python `s.lower()`: per-character lowercase map.
def pyLower (s : String) : String :=
  ⟨s.data.map Char.toLower⟩

theorem startsWithList_map (f : Char → Char) :
    ∀ hay needle : List Char, startsWithList hay needle = true →
      startsWithList (hay.map f) (needle.map f) = true := by
  intro hay
  induction hay with
  | nil =>
    intro needle h
    cases needle with
    | nil => simp [startsWithList]
    | cons b bs => simp [startsWithList] at h
  | cons a as ih =>
    intro needle h
    cases needle with
    | nil => simp [startsWithList]
    | cons b bs =>
      simp [startsWithList] at h ⊢
      obtain ⟨hab, hrest⟩ := h
      exact ⟨congrArg f hab, ih bs hrest⟩

theorem containsList_map (f : Char → Char) :
    ∀ hay needle : List Char, containsList hay needle = true →
      containsList (hay.map f) (needle.map f) = true := by
  intro hay
  induction hay with
  | nil =>
    intro needle h
    simp [containsList] at h ⊢
    simp [h]
  | cons c t ih =>
    intro needle h
    simp only [containsList, Bool.or_eq_true] at h
    rcases h with h | h
    · simp only [List.map_cons, containsList, Bool.or_eq_true]
      exact Or.inl (startsWithList_map f (c :: t) needle h)
    · simp only [List.map_cons, containsList, Bool.or_eq_true]
      exact Or.inr (ih needle h)

-- Containment survives lowercasing whenever the needle is lowercase-invariant.
theorem pyContains_pyLower {s k : String}
    (hk : k.data.map Char.toLower = k.data)
    (h : pyContains s k = true) : pyContains (pyLower s) k = true := by
  have := containsList_map Char.toLower s.data k.data h
  rw [hk] at this
  exact this

/-! ### JSON-compatible Python values -/

inductive Value where
  | null
  | bool (b : Bool)
  | int (n : Int)
  | str (s : String)
  | list (xs : List Value)
  | dict (kvs : List (String × Value))

-- Python `type(v).__name__` for the embedded value universe.
def typeName : Value → String
  | .null => "NoneType"
  | .bool _ => "bool"
  | .int _ => "int"
  | .str _ => "str"
  | .list _ => "list"
  | .dict _ => "dict"

-- Python `v is None`.
def vIsNull : Value → Bool
  | .null => true
  | _ => false

-- Python truthiness for the embedded value universe.
def pyTruthy : Value → Bool
  | .null => false
  | .bool b => b
  | .int n => !(n == 0)
  | .str s => !(s == "")
  | .list xs => !xs.isEmpty
  | .dict kvs => !kvs.isEmpty

mutual
-- Python `repr(v)` (string quoting approximated; used only through `pyStr`).
def pyRepr : Value → String
  | .null => "None"
  | .bool true => "True"
  | .bool false => "False"
  | .int n => n.repr
  | .str s => "\x27" ++ s ++ "\x27"
  | .list xs => "[" ++ pyReprList xs ++ "]"
  | .dict kvs => "\x7b" ++ pyReprPairs kvs ++ "\x7d"

def pyReprList : List Value → String
  | [] => ""
  | [v] => pyRepr v
  | v :: w :: rest => pyRepr v ++ ", " ++ pyReprList (w :: rest)

def pyReprPairs : List (String × Value) → String
  | [] => ""
  | [(k, v)] => pyRepr (.str k) ++ ": " ++ pyRepr v
  | (k, v) :: w :: rest => pyRepr (.str k) ++ ": " ++ pyRepr v ++ ", " ++ pyReprPairs (w :: rest)
end

-- Python `str(v)`: the string itself for `str`, `repr` otherwise
-- (spelled out per constructor so that each case is a plain equation).
def pyStr : Value → String
  | .str s => s
  | .null => pyRepr .null
  | .bool b => pyRepr (.bool b)
  | .int n => pyRepr (.int n)
  | .list xs => pyRepr (.list xs)
  | .dict kvs => pyRepr (.dict kvs)

-- Python `d.get(k)` on an insertion-ordered dict (unique keys).
def dget (kvs : List (String × Value)) (k : String) : Option Value :=
  match kvs with
  | [] => none
  | (k2, v) :: rest => if k2 == k then some v else dget rest k

-- Field lookup on an envelope value (none when not a dict or key absent).
def envelopeField (v : Value) (k : String) : Option Value :=
  match v with
  | .dict kvs => dget kvs k
  | _ => none

/-! ### Decimal representations are never empty (needed for session-id totality) -/

theorem toDigitsCore_length_le (b : Nat) :
    ∀ (fuel n : Nat) (ds : List Char), ds.length ≤ (Nat.toDigitsCore b fuel n ds).length := by
  intro fuel
  induction fuel with
  | zero => intro n ds; simp [Nat.toDigitsCore]
  | succ f ih =>
    intro n ds
    unfold Nat.toDigitsCore
    dsimp only
    by_cases h : n / b = 0
    · simp [h]
    · simp only [if_neg h]
      exact le_trans (by simp) (ih _ _)

theorem natRepr_ne_empty (n : Nat) : Nat.repr n ≠ "" := by
  have hlen : 1 ≤ (Nat.toDigits 10 n).length := by
    unfold Nat.toDigits Nat.toDigitsCore
    dsimp only
    by_cases h : n / 10 = 0
    · simp [h]
    · simp only [if_neg h]
      exact le_trans (by simp) (toDigitsCore_length_le 10 n (n / 10) [(n % 10).digitChar])
  intro h
  have hdata : Nat.toDigits 10 n = [] := congrArg String.data h
  rw [hdata] at hlen
  simp at hlen

theorem intRepr_ne_empty (n : Int) : n.repr ≠ "" := by
  cases n with
  | ofNat m => exact natRepr_ne_empty m
  | negSucc m =>
    intro h
    have hl := congrArg String.length h
    rw [Int.repr, String.length_append] at hl
    rw [show ("-" : String).length = 1 from rfl, show ("" : String).length = 0 from rfl] at hl
    omega

theorem pyStr_ne_empty_of_truthy {v : Value} (h : pyTruthy v = true) : pyStr v ≠ "" := by
  cases v with
  | null => simp [pyTruthy] at h
  | bool b =>
    cases b with
    | true => rw [pyStr, pyRepr]; decide
    | false => simp [pyTruthy] at h
  | int n => rw [pyStr, pyRepr]; exact intRepr_ne_empty n
  | str s => simpa [pyTruthy] using h
  | list xs =>
    intro hc
    have hl := congrArg String.length hc
    rw [pyStr, pyRepr, String.length_append, String.length_append] at hl
    rw [show ("[" : String).length = 1 from rfl, show ("]" : String).length = 1 from rfl,
      show ("" : String).length = 0 from rfl] at hl
    omega
  | dict kvs =>
    intro hc
    have hl := congrArg String.length hc
    rw [pyStr, pyRepr, String.length_append, String.length_append] at hl
    rw [show ("\x7b" : String).length = 1 from rfl, show ("\x7d" : String).length = 1 from rfl,
      show ("" : String).length = 0 from rfl] at hl
    omega

/-! ### Persona selection — `MLBTransferAgent._enhance_message_with_prompt`
    (`src/agent_executor.py` lines 397-426) -/

inductive Persona where
  | clubOfficial
  | player
  | fan
deriving DecidableEq

-- The three keyword cue sets, in the order the code tests them.
def clubKeywords : List String := ["영입", "보강", "계약", "투수진", "타선"]

def playerKeywords : List String := ["커리어", "발전", "새로운 도전", "이적 고려"]

def fanKeywords : List String := ["떠난다", "떠나는", "이유", "아쉽", "이해"]

-- `any(keyword in message_lower for keyword in [...])`
def hasAnyKeyword (ks : List String) (messageLower : String) : Bool :=
  ks.any (fun k => pyContains messageLower k)

-- The persona whose prompt `_enhance_message_with_prompt` selects.
def selectPersona (userMessage : String) : Persona :=
  let m := pyLower userMessage
  if hasAnyKeyword clubKeywords m then .clubOfficial
  else if hasAnyKeyword playerKeywords m then .player
  else if hasAnyKeyword fanKeywords m then .fan
  else .clubOfficial

-- The four prompt texts loaded by `_load_prompts` (contents are opaque here).
structure Prompts where
  systemPrompt : String
  club_official : String
  player : String
  fan : String

-- The closing instruction naming the chosen flow.
def personaClosing : Persona → String
  | .clubOfficial => "위의 구단 관계자 플로우에 따라 응답해주세요."
  | .player => "위의 선수 플로우에 따라 응답해주세요."
  | .fan => "위의 팬 플로우에 따라 응답해주세요."

def personaPromptText (p : Prompts) : Persona → String
  | .clubOfficial => p.club_official
  | .player => p.player
  | .fan => p.fan

-- `_enhance_message_with_prompt`: four-part concatenation, persona chosen by
-- the keyword scan above (first match wins, club-official default).
def enhanceMessageWithPrompt (p : Prompts) (userMessage : String) : String :=
  let enhanced := p.systemPrompt ++ "\n\n"
  let m := pyLower userMessage
  if hasAnyKeyword clubKeywords m then
    enhanced ++ (p.club_official ++ "\n\n") ++ ("사용자 질문: " ++ userMessage ++ "\n\n")
      ++ "위의 구단 관계자 플로우에 따라 응답해주세요."
  else if hasAnyKeyword playerKeywords m then
    enhanced ++ (p.player ++ "\n\n") ++ ("사용자 질문: " ++ userMessage ++ "\n\n")
      ++ "위의 선수 플로우에 따라 응답해주세요."
  else if hasAnyKeyword fanKeywords m then
    enhanced ++ (p.fan ++ "\n\n") ++ ("사용자 질문: " ++ userMessage ++ "\n\n")
      ++ "위의 팬 플로우에 따라 응답해주세요."
  else
    enhanced ++ (p.club_official ++ "\n\n") ++ ("사용자 질문: " ++ userMessage ++ "\n\n")
      ++ "위의 구단 관계자 플로우에 따라 응답해주세요."

-- Shape of the enhanced message once a persona was picked.
def personaMessage (p : Prompts) (persona : Persona) (userMessage : String) : String :=
  (p.systemPrompt ++ "\n\n") ++ (personaPromptText p persona ++ "\n\n")
    ++ ("사용자 질문: " ++ userMessage ++ "\n\n") ++ personaClosing persona

theorem enhance_eq_personaMessage (p : Prompts) (s : String) :
    enhanceMessageWithPrompt p s = personaMessage p (selectPersona s) s := by
  unfold enhanceMessageWithPrompt selectPersona personaMessage
  dsimp only
  by_cases h1 : hasAnyKeyword clubKeywords (pyLower s) = true
  · simp [h1, personaPromptText, personaClosing]
  · by_cases h2 : hasAnyKeyword playerKeywords (pyLower s) = true
    · simp [h1, h2, personaPromptText, personaClosing]
    · by_cases h3 : hasAnyKeyword fanKeywords (pyLower s) = true
      · simp [h1, h2, h3, personaPromptText, personaClosing]
      · simp [h1, h2, h3, personaPromptText, personaClosing]

/-! ### Result Normalizer and Tool Adapter — `MCPToolWrapper`
    (`src/agent_executor.py` lines 28-130)

The remote call `await self._mcp_tool.ainvoke(*args, **kwargs)` is embedded as
its outcome `Except String Value`: `.ok r` when it returned `r`, `.error e`
when it raised an exception with `str(e) = e`. -/

-- The error envelope built in the except-branch of `_arun` (lines 123-130).
def errorEnvelope (toolName e : String) : Value :=
  .dict [("error", .str e), ("type", .str "error"),
         ("message", .str "툴 실행 중 오류가 발생했습니다."), ("tool_name", .str toolName)]

-- The allow-listed schema sample field names (line 89).
def allowedSampleKeys : List String := ["fullname", "id", "primaryposition", "status"]

-- The `sample_fields` loop over the first element (lines 87-90):
-- `if value is not None and key in [...]: sample_fields[key] = type(value).__name__`.
-- A Python dict has unique keys, so the insertion-order filter below coincides
-- with the loop's dict assignments.
def sampleFieldsOf (kvs : List (String × Value)) : List (String × Value) :=
  kvs.filterMap fun kv =>
    if !vIsNull kv.2 && allowedSampleKeys.contains kv.1 then
      some (kv.1, Value.str (typeName kv.2))
    else none

-- Normalization of the raw tool result (the body of `_arun` after the await,
-- lines 70-121): branches on list / dict / None / other, in that order.
def normalizeResult (toolName : String) (result : Value) : Value :=
  match result with
  | .list items =>
    match items with
    | [] =>
      -- empty list short-circuit (lines 75-81)
      .dict [("type", .str "list"), ("count", .int 0), ("items", .list []),
             ("summary", .str "데이터가 없습니다.")]
    | firstItem :: _ =>
      match firstItem with
      | .dict kvs =>
        -- first element is a mapping: build the schema sample (lines 83-102)
        .dict [("type", .str "list"), ("count", .int items.length),
               ("items", .list items),
               ("summary", .str ("총 " ++ Nat.repr items.length ++ "개의 항목이 반환되었습니다.")),
               ("schema", .dict [("item_type", .str "dict"),
                                 ("sample_fields", .dict (sampleFieldsOf kvs)),
                                 ("total_items", .int items.length)])]
      | _ =>
        -- first element is not a mapping (lines 103-111); the guard
        -- `if result else "unknown"` is dead here since the list is non-empty
        .dict [("type", .str "list"), ("count", .int items.length),
               ("items", .list items),
               ("summary", .str ("총 " ++ Nat.repr items.length ++ "개의 항목이 반환되었습니다.")),
               ("item_type", .str (typeName firstItem))]
  | .dict kvs => .dict kvs                 -- mapping passthrough (lines 113-115)
  | .null => .dict [("result", Value.null), ("message", .str "데이터가 없습니다.")]
  | other => .dict [("result", .str (pyStr other)), ("type", .str (typeName other))]

-- `_arun` (lines 64-130): the try-block awaits the call and normalizes; any
-- exception — from the remote call or from normalization itself — is caught
-- and converted to the error envelope, so `_arun` always returns a value.
-- Normalization in the embedding is the total function `normalizeResult`.
def arun (toolName : String) (callOutcome : Except String Value) : Value :=
  match callOutcome with
  | .ok result => normalizeResult toolName result
  | .error e => errorEnvelope toolName e

-- `_run` (lines 46-62) when no cooperative scheduler is driving:
-- `loop.run_until_complete(self._arun(...))` — the awaited value of `_arun`.
def runViaCurrentLoop (toolName : String) (callOutcome : Except String Value) : Value :=
  arun toolName callOutcome

-- `_run` when a scheduler is already running: the suspending call is moved to
-- a worker thread with its own scheduler (`asyncio.run` inside a
-- `ThreadPoolExecutor`) and the calling thread blocks on `future.result()` —
-- again the awaited value of `_arun`.
def runViaWorkerThread (toolName : String) (callOutcome : Except String Value) : Value :=
  arun toolName callOutcome

-- `_run`, whole body.  `loopRunning` is `asyncio.get_event_loop().is_running()`;
-- `bridgeFailure` is an exception raised by the event-loop bridging machinery
-- itself (not by the tool: `_arun` never raises), caught at lines 60-62 and
-- turned into the two-field envelope.
def runToolSync (loopRunning : Bool) (bridgeFailure : Option String)
    (toolName : String) (callOutcome : Except String Value) : Value :=
  match bridgeFailure with
  | some e => .dict [("error", .str e), ("type", .str "error")]
  | none =>
    if loopRunning then runViaWorkerThread toolName callOutcome
    else runViaCurrentLoop toolName callOutcome

/-! ### Invocation error classification — `MLBTransferAgent.invoke`
    (`src/agent_executor.py` lines 333-384)

The reasoning engine (`create_react_agent` + LLM) is an external collaborator;
its run is embedded as an outcome `Except String String`: `.ok text` when it
returned a final message, `.error e` when it raised with `str(e) = e`. -/

def recursionGuidance : String :=
  "MLB 데이터 분석 중 복잡한 요청으로 인해 처리 시간이 초과되었습니다. "
    ++ "더 구체적이고 간단한 질문으로 다시 시도해주세요. "
    ++ "예: \x27양키스의 주요 선수는 누구인가요?\x27 또는 \x27다저스의 2024년 성적은?\x27"

def toolErrorGuidance : String :=
  "MLB 데이터 조회 중 툴 실행 오류가 발생했습니다. "
    ++ "잠시 후 다시 시도하거나 다른 질문을 해주세요. "
    ++ "예: \x27양키스 팀 정보\x27 또는 \x27MLB 주요 선수들\x27"

def timeoutGuidance : String :=
  "MLB 데이터 분석에 시간이 너무 오래 걸렸습니다. " ++ "더 간단한 질문으로 다시 시도해주세요."

-- The substring classification in `invoke`'s except-branch (lines 357-384).
def classifyAgentError (e : String) : String :=
  if pyContains e "Recursion limit" || pyContains e "GraphRecursionError" then
    recursionGuidance
  else if pyContains e "ToolException" || pyContains e "structured_content" then
    toolErrorGuidance
  else if pyContains (pyLower e) "timeout" then
    timeoutGuidance
  else
    "에이전트 실행 중 오류가 발생했습니다: " ++ e

-- `invoke`: on success the last message's content; on an exception from the
-- engine run, the classified guidance text.  `invoke` itself never raises.
def invokeOutcome (engineRun : Except String String) : String :=
  match engineRun with
  | .ok text => text
  | .error e => classifyAgentError e

-- End-to-end dataflow of one tool-using invocation: the adapter converts the
-- tool call's outcome into an envelope (never an exception), the external
-- engine consumes that envelope and either returns a final text or raises,
-- and `invoke` classifies only what the engine run itself raises.
def executorVisibleOutcome (engine : Value → Except String String)
    (toolName : String) (toolCallOutcome : Except String Value) : String :=
  invokeOutcome (engine (arun toolName toolCallOutcome))

/-! ### Conversation memory store — `ConversationMemoryStore.__init__`
    (`src/memory.py` lines 70-89) -/

inductive Backend where
  | memory
  | redis
deriving DecidableEq

-- The environment as seen by the constructor.  `redisAvailable` embeds whether
-- `redis.Redis.from_url(...); ping()` succeeds.
structure MemoryEnv where
  memoryBackendVar : Option String   -- MEMORY_BACKEND (None when unset)
  redisUrl : Option String           -- REDIS_URL (None when unset)
  redisAvailable : Bool
deriving DecidableEq

-- Truthiness of `os.getenv(...)`: set and non-empty.
def truthyEnv : Option String → Bool
  | none => false
  | some s => !(s == "")

-- The constructor: selects the backend, raising only on the re-raise path.
-- `.error` stands for the constructor letting the connection exception escape.
def initMemoryBackend (env : MemoryEnv) : Except String Backend :=
  let backendVar := pyLower (env.memoryBackendVar.getD "auto")
  if (backendVar == "auto" || backendVar == "redis") && truthyEnv env.redisUrl then
    if env.redisAvailable then .ok .redis
    else if backendVar == "redis" then .error "redis construction failed"
    else .ok .memory
  else .ok .memory

/-! ### Message (de)serialization — `_serialize_message` / `_deserialize_message`
    (`src/memory.py` lines 10-32) -/

-- A LangChain message: the three role classes matched by isinstance, plus any
-- other `BaseMessage`, carrying its `type` attribute string.
inductive LCMessage where
  | human (content : String)
  | ai (content : String)
  | system (content : String)
  | other (ty : String) (content : String)
deriving DecidableEq

structure SerializedMsg where
  role : String
  content : String
deriving DecidableEq

def serializeMessage : LCMessage → SerializedMsg
  | .human c => ⟨"human", c⟩
  | .ai c => ⟨"ai", c⟩
  | .system c => ⟨"system", c⟩
  | .other ty c => ⟨if ty == "" then "unknown" else ty, c⟩   -- `msg.type or "unknown"`

def deserializeMessage (d : SerializedMsg) : LCMessage :=
  if d.role == "human" then .human d.content
  else if d.role == "ai" then .ai d.content
  else if d.role == "system" then .system d.content
  else .human d.content                                      -- fallback

/-! ### Agent initialization — `MLBTransferAgent._initialize_agent`
    (`src/agent_executor.py` lines 223-331) -/

-- A raw MCP tool object as discovery hands it over: which of the `name` /
-- `description` attributes it has, and whether `MCPToolWrapper(...)`
-- construction raises on it (e.g. field validation).
structure RawTool where
  name : Option String
  description : Option String
  wrapRaises : Bool
deriving DecidableEq

structure WrappedTool where
  name : String
  description : String
deriving DecidableEq

-- One iteration of the wrapping loop (lines 281-287): requires both
-- attributes; a raising constructor is caught, logged and skipped.
def wrapRaw (t : RawTool) : Option WrappedTool :=
  match t.name, t.description with
  | some n, some d => if t.wrapRaises then none else some ⟨n, d⟩
  | _, _ => none

def wrapAll (rawDict : List (String × RawTool)) : List WrappedTool :=
  rawDict.filterMap fun kv => wrapRaw kv.2

-- Dict insertion (assignment semantics: an existing key keeps its position
-- and gets the new value).
def upsertRaw (d : List (String × RawTool)) (k : String) (v : RawTool) :
    List (String × RawTool) :=
  match d with
  | [] => [(k, v)]
  | (k2, v2) :: rest => if k2 == k then (k, v) :: rest else (k2, v2) :: upsertRaw rest k v

-- list → dict normalization (lines 272-277): key is the tool's `name`
-- attribute, defaulting to `tool_{i}` from `enumerate`.
def listToDict (ts : List RawTool) : List (String × RawTool) :=
  ts.enum.foldl (fun d it => upsertRaw d (it.2.name.getD ("tool_" ++ Nat.repr it.1)) it.2) []

-- What the remote listing produced, abstracting the `get_tools` /
-- `list_tools` / `list_all_tools` cascade (lines 246-267) into its final
-- `raw_tools` outcome.
inductive ToolDiscovery where
  | noListMethod                          -- no listing method: lines 253-256
  | raised (e : String)                   -- fetching raised: caught at 290-292
  | gotList (ts : List RawTool)           -- raw_tools is a list
  | gotDict (d : List (String × RawTool)) -- raw_tools is a dict
deriving DecidableEq

-- The dispatcher's mutable fields relevant here.  The reasoning-agent handle
-- is identified by the tool list it was built with.
structure AgentState where
  tools : Option (List WrappedTool)
  agent : Option (List WrappedTool)
  agentWithMemory : Option (List WrappedTool)
deriving DecidableEq

-- `_create_react_agent` (lines 301-331): unconditionally builds the agent,
-- with `self.tools` when truthy and with `[]` otherwise, then the memory
-- wrapper around it.
def createReactAgent (st : AgentState) : AgentState :=
  let builtWith := match st.tools with
    | some ts => if !ts.isEmpty then ts else []
    | none => []
  { st with agent := some builtWith, agentWithMemory := some builtWith }

-- `_initialize_agent`.  `connectOutcome` is the result of the connection
-- attempt (`some e` = it raised) — caught at lines 241-243 and deliberately
-- ignored, discovery proceeds regardless.  Every path through the try-block,
-- including the early `return` when no listing method exists and the
-- except-branches, runs the `finally` (lines 297-299), which builds the agent.
def initializeAgent (st : AgentState) (connectOutcome : Option String)
    (disc : ToolDiscovery) : AgentState :=
  if st.agent.isSome then st            -- double-checked fast path (lines 225-229)
  else
    let _ := connectOutcome             -- connection failures change nothing
    let st1 := match disc with
      | .noListMethod => { st with tools := some [] }
      | .raised _ => { st with tools := some [] }
      | .gotList ts => { st with tools := some (wrapAll (listToDict ts)) }
      | .gotDict d => { st with tools := some (wrapAll d) }
    createReactAgent st1

/-! ### Session-id extraction — `MLBTransferAgentExecutor._extract_session_id`
    (`src/agent_executor.py` lines 462-478) -/

-- The request context as the extractor probes it: the raw `request` attribute
-- (absent or any value) and `context.message.messageId` (absent when the
-- message is absent or has no id).
structure ExecRequestCtx where
  request : Option Value
  messageId : Option Value

def sessionKeys : List String := ["session_id", "sessionId", "conversation_id", "conversationId"]

-- `params = req.get("params") or {}` (line 467): a falsy or absent value is
-- replaced by the empty dict.
def paramsValOf (reqFields : List (String × Value)) : Value :=
  match dget reqFields "params" with
  | some v => if pyTruthy v then v else .dict []
  | none => .dict []

-- The key loop (lines 468-470): first truthy id among the four keys,
-- stringified.
def lookupSessionKey (params : List (String × Value)) : Option String :=
  sessionKeys.findSome? fun k =>
    match dget params k with
    | some v => if pyTruthy v then some (pyStr v) else none
    | none => none

-- Part 1 (lines 465-472): the try-block over request params.  Any shape that
-- would make `.get` raise is caught by the bare except and yields nothing;
-- a falsy `request` is replaced by `{}` by the `or {}` and finds nothing.
def paramSessionId (ctx : ExecRequestCtx) : Option String :=
  match ctx.request with
  | some (.dict reqFields) =>
    match paramsValOf reqFields with
    | .dict params => lookupSessionKey params
    | _ => none             -- `params.get` raises on a non-dict; except → pass
  | some _ => none          -- truthy non-dict request: `.get` raises; falsy: `or {}` finds nothing
  | none => none

-- `_extract_session_id`: params id, else truthy messageId, else "default".
def extractSessionId (ctx : ExecRequestCtx) : String :=
  match paramSessionId ctx with
  | some s => s
  | none =>
    match ctx.messageId with
    | some mid => if pyTruthy mid then pyStr mid else "default"
    | none => "default"

/-! ### Claims -/

/-- C1: Persona selection is first-match-wins in the fixed priority order
club-official, player, fan over the lowercased input: any club-official cue
selects the club-official prompt regardless of other cues; the player set is
only reached when no club cue matched, the fan set when neither earlier set
matched; with no cues at all the club-official persona is the default, and the
the enhanced message is built from the chosen persona's prompt. -/
theorem persona_selection_priority (s : String) :
    ((∃ k ∈ clubKeywords, pyContains s k = true) → selectPersona s = .clubOfficial) ∧
    (hasAnyKeyword clubKeywords (pyLower s) = false →
      hasAnyKeyword playerKeywords (pyLower s) = true → selectPersona s = .player) ∧
    (hasAnyKeyword clubKeywords (pyLower s) = false →
      hasAnyKeyword playerKeywords (pyLower s) = false →
      hasAnyKeyword fanKeywords (pyLower s) = true → selectPersona s = .fan) ∧
    (hasAnyKeyword clubKeywords (pyLower s) = false →
      hasAnyKeyword playerKeywords (pyLower s) = false →
      hasAnyKeyword fanKeywords (pyLower s) = false → selectPersona s = .clubOfficial) ∧
    (∀ p : Prompts, selectPersona s = .clubOfficial →
      enhanceMessageWithPrompt p s = personaMessage p .clubOfficial s) := by
  refine ⟨?_, ?_, ?_, ?_, ?_⟩
  · rintro ⟨k, hk, hc⟩
    have hlow : ∀ k2 ∈ clubKeywords, k2.data.map Char.toLower = k2.data := by decide
    have h2 := pyContains_pyLower (hlow k hk) hc
    have hany : hasAnyKeyword clubKeywords (pyLower s) = true := by
      rw [hasAnyKeyword, List.any_eq_true]
      exact ⟨k, hk, h2⟩
    simp [selectPersona, hany]
  · intro h1 h2
    simp [selectPersona, h1, h2]
  · intro h1 h2 h3
    simp [selectPersona, h1, h2, h3]
  · intro h1 h2 h3
    simp [selectPersona, h1, h2, h3]
  · intro p hsel
    rw [enhance_eq_personaMessage, hsel]

/-- Witness for C1: concrete inputs exercising each branch; the first input
contains both a club-official cue (보강) and a player cue (커리어) and the
club-official persona wins. -/
theorem persona_selection_priority_witness :
    selectPersona "양키스 투수진 보강 제안과 커리어 상담" = Persona.clubOfficial ∧
    selectPersona "커리어 발전이 아쉽다" = Persona.player ∧
    selectPersona "팀을 떠나는 이유가 궁금하다" = Persona.fan ∧
    selectPersona "안녕하세요" = Persona.clubOfficial :=
  ⟨(persona_selection_priority _).1 ⟨"보강", by decide, by decide⟩,
   (persona_selection_priority _).2.1 (by decide) (by decide),
   (persona_selection_priority _).2.2.1 (by decide) (by decide) (by decide),
   (persona_selection_priority _).2.2.2.1 (by decide) (by decide) (by decide)⟩

/-- C2: when the remote asynchronous invocation raises, `_arun` returns the
error envelope with fields `error`, `type="error"`, `message` and `tool_name`
equal to the wrapped tool's name, and never lets an exception escape; on a
successful call it returns the (total) normalization of the result, so
normalization never raises either. -/
theorem arun_exception_error_envelope (toolName e : String) :
    arun toolName (.error e) = errorEnvelope toolName e ∧
    envelopeField (arun toolName (.error e)) "error" = some (.str e) ∧
    envelopeField (arun toolName (.error e)) "type" = some (.str "error") ∧
    envelopeField (arun toolName (.error e)) "message" =
      some (.str "툴 실행 중 오류가 발생했습니다.") ∧
    envelopeField (arun toolName (.error e)) "tool_name" = some (.str toolName) ∧
    (∀ r : Value, arun toolName (.ok r) = normalizeResult toolName r) :=
  ⟨rfl, rfl, rfl, rfl, rfl, fun _ => rfl⟩

/-- C3: the blocking entry point `_run`, when the event-loop bridging itself
does not fail, returns exactly the suspending entry point's envelope on both
scheduler paths (current loop and worker thread), for every tool-call outcome
including a raising one. -/
theorem run_sync_matches_arun (loopRunning : Bool) (toolName : String)
    (callOutcome : Except String Value) :
    runToolSync loopRunning none toolName callOutcome = arun toolName callOutcome ∧
    runViaCurrentLoop toolName callOutcome = arun toolName callOutcome ∧
    runViaWorkerThread toolName callOutcome = arun toolName callOutcome := by
  refine ⟨?_, rfl, rfl⟩
  cases loopRunning <;> rfl

/-- C7: an empty list result normalizes to the envelope with `type="list"`,
`count=0`, `items=[]` and the fixed no-data summary, with no `schema` field. -/
theorem normalize_empty_list_envelope (toolName : String) :
    normalizeResult toolName (.list []) =
      .dict [("type", .str "list"), ("count", .int 0), ("items", .list []),
             ("summary", .str "데이터가 없습니다.")] ∧
    envelopeField (normalizeResult toolName (.list [])) "schema" = none :=
  ⟨rfl, rfl⟩

/-- C8: a non-empty list whose first element is a mapping normalizes to an
envelope whose `count` is the input length, whose `items` is the original list
in order, and whose `schema.sample_fields` holds exactly the allow-listed keys
that are present with a non-null value on the first element, each mapped to its
value's type name; keys outside the allow-list and elements after the first
are never recorded. -/
theorem normalize_dict_list_schema (toolName : String) (kvs : List (String × Value))
    (rest : List Value) :
    normalizeResult toolName (.list (.dict kvs :: rest)) =
      .dict [("type", .str "list"), ("count", .int (rest.length + 1)),
             ("items", .list (.dict kvs :: rest)),
             ("summary", .str ("총 " ++ Nat.repr (rest.length + 1) ++ "개의 항목이 반환되었습니다.")),
             ("schema", .dict [("item_type", .str "dict"),
                               ("sample_fields", .dict (sampleFieldsOf kvs)),
                               ("total_items", .int (rest.length + 1))])] ∧
    (∀ k t, (k, Value.str t) ∈ sampleFieldsOf kvs ↔
      (allowedSampleKeys.contains k = true ∧
        ∃ v, (k, v) ∈ kvs ∧ vIsNull v = false ∧ t = typeName v)) := by
  constructor
  · rfl
  · intro k t
    constructor
    · intro hmem
      rw [sampleFieldsOf, List.mem_filterMap] at hmem
      obtain ⟨⟨k2, v⟩, hin, hf⟩ := hmem
      dsimp only at hf
      split at hf
      · next hcond =>
        rw [Option.some.injEq, Prod.mk.injEq] at hf
        obtain ⟨hk2, hv⟩ := hf
        subst hk2
        rw [Bool.and_eq_true, Bool.not_eq_true'] at hcond
        have ht : t = typeName v := by
          have := congrArg (fun x => match x with | Value.str s => s | _ => "") hv
          exact this.symm
        exact ⟨hcond.2, v, hin, hcond.1, ht⟩
      · exact absurd hf (by simp)
    · rintro ⟨hk, v, hin, hnull, ht⟩
      rw [sampleFieldsOf, List.mem_filterMap]
      refine ⟨(k, v), hin, ?_⟩
      show (if !vIsNull v && allowedSampleKeys.contains k then
        some (k, Value.str (typeName v)) else none) = some (k, Value.str t)
      rw [hnull, hk]
      subst ht
      rfl

/-- C4 counterexample: with `MEMORY_BACKEND=redis` but `REDIS_URL` unset, the
durable backend is explicitly mandated and unavailable, yet construction does
not raise — it silently selects the in-memory backend. -/
theorem memory_redis_mandated_no_url_no_raise :
    initMemoryBackend ⟨some "redis", none, false⟩ = .ok Backend.memory := rfl

/-- C4 amended: construction raises exactly when `MEMORY_BACKEND` (lowercased)
is `redis`, `REDIS_URL` is set and non-empty, and the connection attempt
fails; with no truthy `REDIS_URL` the durable backend is never attempted and
the store silently uses in-memory (even when explicitly mandated); with
`MEMORY_BACKEND=auto` a failing durable backend silently falls back to
in-memory; a reachable, requested durable backend is selected. -/
theorem memory_backend_fallback_policy (env : MemoryEnv) :
    (truthyEnv env.redisUrl = false → initMemoryBackend env = .ok Backend.memory) ∧
    (pyLower (env.memoryBackendVar.getD "auto") = "auto" → env.redisAvailable = false →
      initMemoryBackend env = .ok Backend.memory) ∧
    (pyLower (env.memoryBackendVar.getD "auto") = "redis" → truthyEnv env.redisUrl = true →
      env.redisAvailable = false →
      initMemoryBackend env = .error "redis construction failed") ∧
    (truthyEnv env.redisUrl = true → env.redisAvailable = true →
      (pyLower (env.memoryBackendVar.getD "auto") = "auto" ∨
        pyLower (env.memoryBackendVar.getD "auto") = "redis") →
      initMemoryBackend env = .ok Backend.redis) := by
  refine ⟨?_, ?_, ?_, ?_⟩
  · intro h
    simp [initMemoryBackend, h]
  · intro h1 h2
    by_cases hu : truthyEnv env.redisUrl = true
    · simp [initMemoryBackend, h1, h2, hu]
    · have hu2 : truthyEnv env.redisUrl = false := by
        revert hu
        cases truthyEnv env.redisUrl <;> simp
      simp [initMemoryBackend, hu2]
  · intro h1 h2 h3
    simp [initMemoryBackend, h1, h2, h3]
  · intro h1 h2 h3
    rcases h3 with h3 | h3 <;> simp [initMemoryBackend, h1, h2, h3]

/-- Witness for C4 amended, at the four concrete configurations. -/
theorem memory_backend_fallback_policy_witness :
    initMemoryBackend ⟨some "redis", none, true⟩ = .ok Backend.memory ∧
    initMemoryBackend ⟨none, some "redis://localhost:6379", false⟩ = .ok Backend.memory ∧
    initMemoryBackend ⟨some "redis", some "redis://localhost:6379", false⟩ =
      .error "redis construction failed" ∧
    initMemoryBackend ⟨some "auto", some "redis://localhost:6379", true⟩ = .ok Backend.redis :=
  ⟨(memory_backend_fallback_policy _).1 (by decide),
   (memory_backend_fallback_policy _).2.1 (by decide) (by decide),
   (memory_backend_fallback_policy _).2.2.1 (by decide) (by decide) (by decide),
   (memory_backend_fallback_policy _).2.2.2 (by decide) (by decide) (Or.inl (by decide))⟩

/-- C5 counterexample: a tool call that raises `TimeoutError` is swallowed by
the Adapter (which returns the error envelope, not an exception), so the
reasoning engine's run completes normally and the Executor-visible outcome is
whatever the engine returned — not the fixed timeout-guidance message. -/
theorem tool_timeout_not_timeout_guidance :
    executorVisibleOutcome (fun _ => .ok "양키스 선수단 분석 결과입니다") "get_player_stats"
        (.error "TimeoutError") = "양키스 선수단 분석 결과입니다" ∧
    executorVisibleOutcome (fun _ => .ok "양키스 선수단 분석 결과입니다") "get_player_stats"
        (.error "TimeoutError") ≠ timeoutGuidance ∧
    arun "get_player_stats" (.error "TimeoutError") =
      errorEnvelope "get_player_stats" "TimeoutError" :=
  ⟨rfl, by decide, rfl⟩

/-- C5 amended: a `TimeoutError` in the tool's remote call never propagates —
the Adapter converts it to the error envelope carrying the tool name; the
fixed timeout-guidance message is produced only when the reasoning-engine run
itself raises an exception whose text contains `timeout` (case-insensitively)
and matches none of the earlier substring categories, in which case `invoke`
returns the guidance instead of raising. -/
theorem timeout_guidance_classification (toolName e : String)
    (h1 : pyContains e "Recursion limit" = false)
    (h2 : pyContains e "GraphRecursionError" = false)
    (h3 : pyContains e "ToolException" = false)
    (h4 : pyContains e "structured_content" = false)
    (h5 : pyContains (pyLower e) "timeout" = true) :
    invokeOutcome (.error e) = timeoutGuidance ∧
    arun toolName (.error e) = errorEnvelope toolName e := by
  constructor
  · simp [invokeOutcome, classifyAgentError, h1, h2, h3, h4, h5]
  · rfl

/-- Witness for C5 amended: an engine-raised timeout is classified to the
guidance text, and the adapter-level conversion at the same message. -/
theorem timeout_guidance_classification_witness :
    invokeOutcome (.error "TimeoutError: request timed out") = timeoutGuidance ∧
    arun "get_team_info" (.error "TimeoutError: request timed out") =
      errorEnvelope "get_team_info" "TimeoutError: request timed out" :=
  timeout_guidance_classification "get_team_info" "TimeoutError: request timed out"
    (by decide) (by decide) (by decide) (by decide) (by decide)

/-- C6 counterexample: a raising connection attempt does not empty the tool
list — the code catches it and proceeds to discovery, so a successfully
discovered and wrapped tool is kept; the agent is still built. -/
theorem connection_failure_tools_not_empty :
    (initializeAgent ⟨none, none, none⟩ (some "connection refused")
        (.gotDict [("get_team", ⟨some "get_team", some "팀 정보 조회", false⟩)])).tools =
      some [⟨"get_team", "팀 정보 조회"⟩] ∧
    (initializeAgent ⟨none, none, none⟩ (some "connection refused")
        (.gotDict [("get_team", ⟨some "get_team", some "팀 정보 조회", false⟩)])).tools ≠
      some [] ∧
    (initializeAgent ⟨none, none, none⟩ (some "connection refused")
        (.gotDict [("get_team", ⟨some "get_team", some "팀 정보 조회", false⟩)])).agent.isSome =
      true :=
  ⟨rfl, by decide, rfl⟩

/-- C6 amended: after `_initialize_agent` completes the agent handle is always
non-null, for every discovery outcome (including the early-return path when no
listing method exists); a discovery exception or absence of a listing method
degrades the tool list to empty; connection failures are ignored and discovery
proceeds; a failure while wrapping one tool skips only that tool, keeping the
successfully wrapped rest (the list degrades to the wrappable subset, not
necessarily to empty). -/
theorem initialize_agent_always_ready (st : AgentState) (c : Option String) :
    (∀ d : ToolDiscovery, (initializeAgent st c d).agent.isSome = true) ∧
    (st.agent = none → (initializeAgent st c .noListMethod).tools = some []) ∧
    (st.agent = none → ∀ e, (initializeAgent st c (.raised e)).tools = some []) ∧
    (st.agent = none → ∀ rawDict, (initializeAgent st c (.gotDict rawDict)).tools =
      some (wrapAll rawDict)) ∧
    (st.agent = none → ∀ ts, (initializeAgent st c (.gotList ts)).tools =
      some (wrapAll (listToDict ts))) := by
  refine ⟨?_, ?_, ?_, ?_, ?_⟩
  · intro d
    by_cases h : st.agent.isSome = true
    · simp [initializeAgent, h]
    · cases d <;> simp [initializeAgent, h, createReactAgent]
  · intro h
    simp [initializeAgent, h, createReactAgent]
  · intro h e
    simp [initializeAgent, h, createReactAgent]
  · intro h rawDict
    simp [initializeAgent, h, createReactAgent]
  · intro h ts
    simp [initializeAgent, h, createReactAgent]

/-- Witness for C6 amended: from the uninitialized state, the no-listing-method
early return still builds the agent with an empty tool list; a discovery
exception does the same; a tool whose wrapper construction raises is skipped
while the remaining tool is kept. -/
theorem initialize_agent_always_ready_witness :
    (initializeAgent ⟨none, none, none⟩ none .noListMethod).tools = some [] ∧
    (initializeAgent ⟨none, none, none⟩ none .noListMethod).agent.isSome = true ∧
    (initializeAgent ⟨none, none, none⟩ none (.raised "fetch failed")).tools = some [] ∧
    (initializeAgent ⟨none, none, none⟩ none
        (.gotDict [("bad", ⟨some "bad", some "설명", true⟩),
                   ("good", ⟨some "good", some "설명", false⟩)])).tools =
      some [⟨"good", "설명"⟩] :=
  ⟨(initialize_agent_always_ready ⟨none, none, none⟩ none).2.1 rfl,
   (initialize_agent_always_ready ⟨none, none, none⟩ none).1 .noListMethod,
   (initialize_agent_always_ready ⟨none, none, none⟩ none).2.2.1 rfl "fetch failed",
   Eq.trans ((initialize_agent_always_ready ⟨none, none, none⟩ none).2.2.2.1 rfl
     [("bad", ⟨some "bad", some "설명", true⟩), ("good", ⟨some "good", some "설명", false⟩)])
     (by decide)⟩

/-- C9: serialization round-trips for the three role classes — deserializing
the serialized `(role, content)` pair yields the same role class with the same
content — and any other role falls back on deserialization to a human-role
message carrying the serialized content. -/
theorem message_serialization_roundtrip (c : String) :
    deserializeMessage (serializeMessage (.human c)) = .human c ∧
    deserializeMessage (serializeMessage (.ai c)) = .ai c ∧
    deserializeMessage (serializeMessage (.system c)) = .system c ∧
    (∀ ty : String, ty ≠ "human" → ty ≠ "ai" → ty ≠ "system" →
      deserializeMessage (serializeMessage (.other ty c)) = .human c) := by
  refine ⟨rfl, rfl, rfl, ?_⟩
  intro ty h1 h2 h3
  by_cases h0 : ty = ""
  · subst h0
    rfl
  · simp [serializeMessage, deserializeMessage, h0, h1, h2, h3]

/-- Witness for C9 at a concrete non-standard role. -/
theorem message_serialization_roundtrip_witness :
    deserializeMessage (serializeMessage (.other "tool" "호출 결과")) =
      LCMessage.human "호출 결과" :=
  (message_serialization_roundtrip "호출 결과").2.2.2 "tool"
    (by decide) (by decide) (by decide)

-- An id found among the request params is the stringification of a truthy
-- value, hence never empty.
theorem paramSessionId_ne_empty (ctx : ExecRequestCtx) :
    ∀ s, paramSessionId ctx = some s → s ≠ "" := by
  intro s h
  unfold paramSessionId at h
  split at h
  · split at h
    · rw [lookupSessionKey] at h
      obtain ⟨k, hk, hf⟩ := List.exists_of_findSome?_eq_some h
      split at hf
      · split at hf
        · next htr =>
          rw [Option.some.injEq] at hf
          rw [← hf]
          exact pyStr_ne_empty_of_truthy htr
        · exact absurd hf (by simp)
      · exact absurd hf (by simp)
    · exact absurd h (by simp)
  · exact absurd h (by simp)
  · exact absurd h (by simp)

/-- C10: session-id extraction is total and never returns the empty string —
a truthy session/conversation id from the request params is returned
stringified; otherwise a truthy message id is returned stringified; otherwise
the literal `default` — and no branch raises (every probing failure is caught
and falls through to the next tier). -/
theorem extract_session_id_total (ctx : ExecRequestCtx) :
    extractSessionId ctx ≠ "" ∧
    (∀ s, paramSessionId ctx = some s → extractSessionId ctx = s) ∧
    (paramSessionId ctx = none → ∀ mid, ctx.messageId = some mid →
      pyTruthy mid = true → extractSessionId ctx = pyStr mid) ∧
    (paramSessionId ctx = none → ∀ mid, ctx.messageId = some mid →
      pyTruthy mid = false → extractSessionId ctx = "default") ∧
    (paramSessionId ctx = none → ctx.messageId = none →
      extractSessionId ctx = "default") := by
  have hchar : ∀ s, paramSessionId ctx = some s → extractSessionId ctx = s := by
    intro s hp
    unfold extractSessionId
    rw [hp]
  refine ⟨?_, hchar, ?_, ?_, ?_⟩
  · cases hp : paramSessionId ctx with
    | some s =>
      rw [hchar s hp]
      exact paramSessionId_ne_empty ctx s hp
    | none =>
      unfold extractSessionId
      rw [hp]
      cases hm : ctx.messageId with
      | some mid =>
        dsimp only
        by_cases htr : pyTruthy mid = true
        · rw [if_pos htr]
          exact pyStr_ne_empty_of_truthy htr
        · rw [if_neg htr]
          decide
      | none => decide
  · intro hp mid hm htr
    unfold extractSessionId
    rw [hp, hm]
    dsimp only
    rw [if_pos htr]
  · intro hp mid hm htr
    unfold extractSessionId
    rw [hp, hm]
    dsimp only
    rw [if_neg (by rw [htr]; exact Bool.false_ne_true)]
  · intro hp hm
    unfold extractSessionId
    rw [hp, hm]

/-- Witness for C10: the four tiers at concrete request contexts. -/
theorem extract_session_id_total_witness :
    extractSessionId ⟨some (.dict [("params", .dict [("session_id", .str "sess-42")])]),
      some (.str "msg-1")⟩ = "sess-42" ∧
    extractSessionId ⟨none, some (.str "msg-1")⟩ = "msg-1" ∧
    extractSessionId ⟨none, some (.str "")⟩ = "default" ∧
    extractSessionId ⟨none, none⟩ = "default" :=
  ⟨(extract_session_id_total
      ⟨some (.dict [("params", .dict [("session_id", .str "sess-42")])]),
        some (.str "msg-1")⟩).2.1 "sess-42" (by decide),
   (extract_session_id_total ⟨none, some (.str "msg-1")⟩).2.2.1
     rfl (.str "msg-1") rfl (by decide),
   (extract_session_id_total ⟨none, some (.str "")⟩).2.2.2.1
     rfl (.str "") rfl (by decide),
   (extract_session_id_total ⟨none, none⟩).2.2.2.2 rfl rfl⟩
